import Mathlib

/-!
Verification development for the HEPV feasibility simulation core
(src/hepv-analyzer.py).  The physics models, the tank thermodynamics
step, the driving-cycle generator and both stepwise integrators are
embedded shallowly: real-number arithmetic stands for the float
arithmetic of the source, `np.clip` becomes `clip`, and the per-step
loops become structural recursions over the step index.  Array reads
`v[k]` are modelled by `List.getD v k 0`; the integrators receive the
step size `dt` directly (the source computes `dt = t[1] - t[0]` from
its uniformly spaced time array and uses the time array nowhere else).
-/

/-- Vehicle and system parameters, mirroring the `Params` dataclass. -/
structure Params where
  m0 : ℝ
  m_pneu : ℝ
  Cd : ℝ
  A : ℝ
  Crr : ℝ
  batt_kWh : ℝ
  motor_Pmax : ℝ
  motor_eta_peak : ℝ
  motor_rpm_base : ℝ
  regen_eta : ℝ
  battery_charge_limit : ℝ
  Vtank : ℝ
  Pmax : ℝ
  Pmin : ℝ
  comp_eta : ℝ
  pneu_eta_peak : ℝ
  leak_per_min : ℝ
  rho : ℝ
  g : ℝ
  R : ℝ
  Cv : ℝ
  Tamb : ℝ
  Pamb : ℝ
  n_comp : ℝ
  n_exp : ℝ
  heat_coef : ℝ
  wheel_diam : ℝ
  gear : ℝ

/-- The default parameter object `P = Params()` of the source (the
program never overrides any field). -/
def P : Params :=
  { m0 := 450
    m_pneu := 50
    Cd := 0.28
    A := 1.2
    Crr := 0.012
    batt_kWh := 5
    motor_Pmax := 15000
    motor_eta_peak := 0.92
    motor_rpm_base := 4275
    regen_eta := 0.75
    battery_charge_limit := 0.98
    Vtank := 0.050
    Pmax := 300e5
    Pmin := 100e5
    comp_eta := 0.60
    pneu_eta_peak := 0.40
    leak_per_min := 0.02
    rho := 1.225
    g := 9.81
    R := 287
    Cv := 717
    Tamb := 293
    Pamb := 101325
    n_comp := 1.30
    n_exp := 1.25
    heat_coef := 0.10
    wheel_diam := 0.60
    gear := 9 }

@[simp] theorem P_m0 : P.m0 = 450 := rfl

@[simp] theorem P_m_pneu : P.m_pneu = 50 := rfl

@[simp] theorem P_Cd : P.Cd = 0.28 := rfl

@[simp] theorem P_A : P.A = 1.2 := rfl

@[simp] theorem P_Crr : P.Crr = 0.012 := rfl

@[simp] theorem P_batt_kWh : P.batt_kWh = 5 := rfl

@[simp] theorem P_motor_Pmax : P.motor_Pmax = 15000 := rfl

@[simp] theorem P_motor_eta_peak : P.motor_eta_peak = 0.92 := rfl

@[simp] theorem P_regen_eta : P.regen_eta = 0.75 := rfl

@[simp] theorem P_battery_charge_limit : P.battery_charge_limit = 0.98 := rfl

@[simp] theorem P_Vtank : P.Vtank = 0.050 := rfl

@[simp] theorem P_Pmax : P.Pmax = 300e5 := rfl

@[simp] theorem P_Pmin : P.Pmin = 100e5 := rfl

@[simp] theorem P_comp_eta : P.comp_eta = 0.60 := rfl

@[simp] theorem P_pneu_eta_peak : P.pneu_eta_peak = 0.40 := rfl

@[simp] theorem P_leak_per_min : P.leak_per_min = 0.02 := rfl

@[simp] theorem P_rho : P.rho = 1.225 := rfl

@[simp] theorem P_g : P.g = 9.81 := rfl

@[simp] theorem P_R : P.R = 287 := rfl

@[simp] theorem P_Tamb : P.Tamb = 293 := rfl

@[simp] theorem P_Pamb : P.Pamb = 101325 := rfl

@[simp] theorem P_n_comp : P.n_comp = 1.30 := rfl

@[simp] theorem P_n_exp : P.n_exp = 1.25 := rfl

@[simp] theorem P_heat_coef : P.heat_coef = 0.10 := rfl

@[simp] theorem P_wheel_diam : P.wheel_diam = 0.60 := rfl

@[simp] theorem P_gear : P.gear = 9 := rfl

/-- `np.clip(x, lo, hi)`, i.e. `min (max x lo) hi`. -/
noncomputable def clip (x lo hi : ℝ) : ℝ := min (max x lo) hi

theorem le_clip (x lo hi : ℝ) (h : lo ≤ hi) : lo ≤ clip x lo hi :=
  le_min (le_max_right x lo) h

theorem clip_le (x lo hi : ℝ) : clip x lo hi ≤ hi := min_le_right _ _

theorem clip_eq_lo (x lo hi : ℝ) (hx : x ≤ lo) (h : lo ≤ hi) : clip x lo hi = lo := by
  unfold clip
  rw [max_eq_right hx, min_eq_left h]

theorem lt_clip_of_lt (x lo hi c : ℝ) (hx : c < x) (hhi : c < hi) : c < clip x lo hi :=
  lt_min (lt_of_lt_of_le hx (le_max_left x lo)) hhi

/-- `aero_drag`: aerodynamic drag force. -/
noncomputable def aero_drag (p : Params) (v : ℝ) : ℝ :=
  0.5 * p.rho * p.Cd * p.A * v ^ 2

/-- `rolling_resistance`: rolling resistance force. -/
noncomputable def rolling_resistance (p : Params) (m : ℝ) : ℝ :=
  p.Crr * m * p.g

/-- `power_required`: mechanical power at the wheels. -/
noncomputable def power_required (p : Params) (v a m : ℝ) : ℝ :=
  (m * a + aero_drag p v + rolling_resistance p m) * max v 1e-2

/-- `speed_to_rpm`: vehicle speed (km/h) to motor RPM. -/
noncomputable def speed_to_rpm (p : Params) (kmh : ℝ) : ℝ :=
  let v_ms := kmh / 3.6
  let wheel_rps := v_ms / (p.wheel_diam / 2)
  let wheel_rpm := wheel_rps * 60 / (2 * Real.pi)
  wheel_rpm * p.gear

/-- `electric_motor_efficiency`: piecewise speed factor times piecewise
load factor, clipped to `[0.70, motor_eta_peak]`. -/
noncomputable def electric_motor_efficiency (p : Params) (kmh load : ℝ) : ℝ :=
  let rpm := speed_to_rpm p kmh
  let x := rpm / p.motor_rpm_base
  let s_eff : ℝ :=
    if x < 0.2 then 0.75
    else if x < 0.5 then 0.75 + 0.15 * (x - 0.2) / 0.3
    else if x ≤ 1.5 then 0.90 + 0.02 * (1 - |x - 1|)
    else 0.90 - 0.10 * (x - 1.5)
  let l_eff : ℝ :=
    if load < 0.1 then 0.60 + 4.0 * load
    else if load < 0.8 then 1.0
    else 1.0 - 0.05 * (load - 0.8) / 0.2
  clip (s_eff * l_eff) 0.70 p.motor_eta_peak

/-- `pneumatic_motor_efficiency`: piecewise pressure factor times
piecewise speed factor scaled by the peak, clipped to `[0.15, 0.45]`. -/
noncomputable def pneumatic_motor_efficiency (p : Params) (kmh bar : ℝ) : ℝ :=
  let p_eff : ℝ :=
    if bar < 50 then 0.3
    else if bar < 100 then 0.5 + 0.3 * (bar - 50) / 50
    else if bar ≤ 200 then 0.8
    else 0.8 - 0.2 * (bar - 200) / 100
  let s_eff : ℝ :=
    if kmh < 20 then 1.0
    else if kmh < 40 then 1.0 - 0.15 * (kmh - 20) / 20
    else if kmh < 60 then 0.85 - 0.25 * (kmh - 40) / 20
    else max (0.60 - 0.20 * (kmh - 60) / 20) 0.4
  clip (p.pneu_eta_peak * p_eff * s_eff) 0.15 0.45

/-- `tank_thermodynamics`: the per-step tank update of the source.  It
keeps `(pressure, temperature)` as the state; the energy flow is turned
into a pressure delta `E * (1 - n) / Vtank`, temperature follows the
polytropic ratio (guarded against non-positive pressures), Newtonian
cooling and a leakage factor on the pressure are applied, and both
components are clamped. -/
noncomputable def tank_thermodynamics (p : Params) (Pa T Pw dt : ℝ)
    (charging : Bool) : ℝ × ℝ :=
  let E := Pw * dt * (if charging then p.comp_eta else -1 / p.pneu_eta_peak)
  let n := if charging then p.n_comp else p.n_exp
  let dP := E * (1 - n) / p.Vtank
  let Pa1 := Pa + dP
  let T1 := if 0 < Pa1 ∧ 0 < Pa then T * (Pa1 / Pa) ^ ((n - 1) / n) else T
  let T2 := T1 + (p.Tamb - T1) * p.heat_coef * dt
  let Pa2 := Pa1 * (1 - p.leak_per_min / 60 * dt)
  (clip Pa2 p.Pamb p.Pmax, clip T2 273 400)

/-!
`urban_cycle`, embedded over the rationals (its arithmetic is exact).
`np.arange(0, duration, dt)` is the grid of multiples of `dt` below
`duration`; its length is `⌈duration/dt⌉` for positive arguments
(`arangeLen`).  Python `int(x)` on the non-negative quotients that occur
here is `⌊x⌋`.  The source's `break` when `i0 ≥ len(t)` only skips
writes that would be empty anyway (later segments have larger `i0`, and
a write needs `min i1 n > i0`), so the embedding drops it.
-/

/-- Length of `np.arange(0, d, dt)`: the number of multiples of `dt`
in `[0, d)`, i.e. `⌈d/dt⌉` when `0 < dt`. -/
def arangeLen (d dt : ℚ) : ℕ := if 0 < dt then ⌈d / dt⌉₊ else 0

theorem arangeLen_iff (d dt : ℚ) (hdt : 0 < dt) (k : ℕ) :
    k < arangeLen d dt ↔ (k : ℚ) * dt < d := by
  unfold arangeLen
  rw [if_pos hdt, Nat.lt_ceil, lt_div_iff hdt]

/-- The eight linear speed segments of the 80 s tile:
`(t_start, t_end, v_start, v_end)`, speeds in m/s (`30/3.6 = 25/3`,
`50/3.6 = 125/9`). -/
def segs : List (ℚ × ℚ × ℚ × ℚ) :=
  [(0, 8, 0, 25/3), (8, 18, 25/3, 25/3), (18, 23, 25/3, 0),
   (23, 33, 0, 0), (33, 43, 0, 125/9), (43, 63, 125/9, 125/9),
   (63, 70, 125/9, 0), (70, 80, 0, 0)]

/-- `int((off + ts) / dt)` for the non-negative quotients of the cycle
generator. -/
def segIdx (dt off ts : ℚ) : ℕ := (⌊(off + ts) / dt⌋).toNat

/-- Value `j` of `v_start + (v_end - v_start) * tau` for
`tau = np.linspace(0, 1, m)` (`tau = [0]` when `m = 1`). -/
def interpVal (vs ve : ℚ) (m j : ℕ) : ℚ :=
  if m ≤ 1 then vs else vs + (ve - vs) * (j : ℚ) / ((m : ℚ) - 1)

/-- The slice assignment `v[i0:i1] = v_start + (v_end - v_start) * tau`
with `i1` capped at the array length `n`. -/
def applySeg (n : ℕ) (dt off : ℚ) (sg : ℚ × ℚ × ℚ × ℚ) (v : ℕ → ℚ) : ℕ → ℚ :=
  let i0 := segIdx dt off sg.1
  let i1 := min (segIdx dt off sg.2.1) n
  fun i => if i0 ≤ i ∧ i < i1 then interpVal sg.2.2.1 sg.2.2.2 (i1 - i0) (i - i0) else v i

/-- `int(duration / period) + 1` with `period = 80`. -/
def urbanRepeats (d : ℚ) : ℕ := (⌊d / 80⌋).toNat + 1

/-- The speed array of `urban_cycle`, as a function from the index
(zero outside the written range, matching `np.zeros_like`). -/
def urbanV (d dt : ℚ) : ℕ → ℚ :=
  (List.range (urbanRepeats d)).foldl
    (fun v r => segs.foldl (fun w sg => applySeg (arangeLen d dt) dt (80 * (r : ℚ)) sg w) v)
    (fun _ => 0)

/-- `urban_cycle duration dt`: the sample count together with the speed
series. -/
def urban_cycle (d dt : ℚ) : ℕ × (ℕ → ℚ) := (arangeLen d dt, urbanV d dt)

/-!
The single-source ("BEV") integrator.  The loop body of `simulate_bev`
becomes `bevStep`; the battery energy trace becomes the recursion
`bevBatt`.  The source initializes `soc = np.ones(n)`, `eff` and
`power` with zeros, and overwrites indices `1..n-1` in the loop.
-/

/-- Per-step output of the BEV loop body: the new battery energy, the
recorded efficiency, and the recorded (clipped) power. -/
structure BevOut where
  batt : ℝ
  eff : ℝ
  power : ℝ

/-- Loop body of `simulate_bev` (indices `k ≥ 1`). -/
noncomputable def bevStep (p : Params) (dt vprev vcur batt : ℝ) : BevOut :=
  let a := (vcur - vprev) / dt
  let Pm := clip (power_required p vcur a p.m0) (-12000) p.motor_Pmax
  if 0 ≤ Pm then
    let load := Pm / p.motor_Pmax
    let eta := electric_motor_efficiency p (vcur * 3.6) load
    ⟨batt - Pm / eta * dt, eta, Pm⟩
  else
    let Preg := min (-Pm * p.regen_eta)
      ((p.batt_kWh * 3.6e6 * p.battery_charge_limit - batt) / dt)
    ⟨batt + Preg * dt, p.regen_eta, Pm⟩

/-- Battery energy after step `k` of `simulate_bev`. -/
noncomputable def bevBatt (p : Params) (dt : ℝ) (v : List ℝ) : ℕ → ℝ
  | 0 => p.batt_kWh * 3.6e6
  | k + 1 => (bevStep p dt (v.getD k 0) (v.getD (k + 1) 0) (bevBatt p dt v k)).batt

/-- The result dictionary of `simulate_bev`. -/
structure BevResult where
  soc : ℕ → ℝ
  eff : ℕ → ℝ
  power : ℕ → ℝ
  E_kWh : ℝ

/-- `simulate_bev` over a speed series (m/s) with step `dt`. -/
noncomputable def simulate_bev (p : Params) (dt : ℝ) (v : List ℝ) : BevResult :=
  { soc := fun k => if k = 0 then 1
      else clip (bevBatt p dt v k / (p.batt_kWh * 3.6e6)) 0 1
    eff := fun k => match k with
      | 0 => 0
      | j + 1 => (bevStep p dt (v.getD j 0) (v.getD (j + 1) 0) (bevBatt p dt v j)).eff
    power := fun k => match k with
      | 0 => 0
      | j + 1 => (bevStep p dt (v.getD j 0) (v.getD (j + 1) 0) (bevBatt p dt v j)).power
    E_kWh := (p.batt_kWh * 3.6e6 - bevBatt p dt v (v.length - 1)) / 3.6e6 }

/-!
The dual-source ("HEPV") integrator.  The loop body of `simulate_hepv`
becomes `hepvStep`; the per-step committed state (battery energy, tank
pressure and temperature, pneumatic-usage count) becomes `hepvAcc`.
`soc[k-1]` read by the loop is `1` for `k-1 = 0` (the `np.ones`
initialization) and the clipped ratio written at step `k-1` otherwise
(`hepvSocOf`).
-/

/-- Output of one HEPV loop body: new battery energy, new tank state,
the two recorded powers, and whether the pneumatic path was used. -/
structure HepvOut where
  batt : ℝ
  tankP : ℝ
  tankT : ℝ
  Pe : ℝ
  Pp : ℝ
  used : Bool

/-- Loop body of `simulate_hepv` (indices `k ≥ 1`). -/
noncomputable def hepvStep (p : Params) (dt vprev vcur batt tankP tankT socPrev : ℝ) :
    HepvOut :=
  let m := p.m0 + p.m_pneu
  let a := (vcur - vprev) / dt
  let Pm := power_required p vcur a m
  let kmh := vcur * 3.6
  let p_bar := tankP / 1e5
  if 0 ≤ Pm then
    let use_pneu := kmh < 35 ∧ 100 < p_bar ∧ 8000 < Pm ∧ 0.2 < socPrev
    let Pp := if use_pneu then 0.35 * Pm else 0
    let Pe := if use_pneu then Pm - 0.35 * Pm else Pm
    let batt1 := if 0 < Pe then
        batt - Pe / electric_motor_efficiency p kmh (Pe / p.motor_Pmax) * dt
      else batt
    let tank := if 0 < Pp then tank_thermodynamics p tankP tankT Pp dt false
      else (tankP, tankT)
    { batt := batt1, tankP := tank.1, tankT := tank.2, Pe := Pe, Pp := Pp,
      used := if use_pneu then true else false }
  else
    let Preg := -Pm
    let pair := if socPrev < 0.3 ∨ 280 < p_bar then (Preg, (0 : ℝ))
      else (0.75 * Preg, 0.25 * Preg)
    let Pb := min pair.1 ((p.batt_kWh * 3.6e6 * p.battery_charge_limit - batt) / dt)
    let batt1 := batt + Pb * p.regen_eta * dt
    let Pt := pair.2
    let tank := if 0 < Pt then tank_thermodynamics p tankP tankT Pt dt true
      else (tankP, tankT)
    { batt := batt1, tankP := tank.1, tankT := tank.2, Pe := -Pb, Pp := -Pt,
      used := false }

/-- The state-of-charge value `soc[k]` as read back by step `k+1`. -/
noncomputable def hepvSocOf (p : Params) (b : ℝ) (k : ℕ) : ℝ :=
  if k = 0 then 1 else clip (b / (p.batt_kWh * 3.6e6)) 0 1

/-- Committed state of `simulate_hepv` after step `k`. -/
structure HepvAcc where
  batt : ℝ
  tankP : ℝ
  tankT : ℝ
  count : ℕ

/-- The committed state trace of `simulate_hepv`: battery full, tank at
ambient pressure and temperature at `k = 0`; one `hepvStep` per step. -/
noncomputable def hepvAcc (p : Params) (dt : ℝ) (v : List ℝ) : ℕ → HepvAcc
  | 0 => ⟨p.batt_kWh * 3.6e6, p.Pamb, p.Tamb, 0⟩
  | k + 1 =>
    let s := hepvAcc p dt v k
    let o := hepvStep p dt (v.getD k 0) (v.getD (k + 1) 0) s.batt s.tankP s.tankT
      (hepvSocOf p s.batt k)
    ⟨o.batt, o.tankP, o.tankT, s.count + (if o.used then 1 else 0)⟩

/-- The step-`k+1` loop-body output of `simulate_hepv`. -/
noncomputable def hepvStepAt (p : Params) (dt : ℝ) (v : List ℝ) (k : ℕ) : HepvOut :=
  let s := hepvAcc p dt v k
  hepvStep p dt (v.getD k 0) (v.getD (k + 1) 0) s.batt s.tankP s.tankT
    (hepvSocOf p s.batt k)

/-- The result dictionary of `simulate_hepv` (tank pressure kept in Pa;
the source additionally exports `tankP / 1e5` as bar). -/
structure HepvResult where
  soc : ℕ → ℝ
  Pe : ℕ → ℝ
  Pp : ℕ → ℝ
  tankP : ℕ → ℝ
  tankT : ℕ → ℝ
  E_kWh : ℝ
  pneu_usage : ℕ

/-- `simulate_hepv` over a speed series (m/s) with step `dt`. -/
noncomputable def simulate_hepv (p : Params) (dt : ℝ) (v : List ℝ) : HepvResult :=
  { soc := fun k => hepvSocOf p (hepvAcc p dt v k).batt k
    Pe := fun k => match k with
      | 0 => 0
      | j + 1 => (hepvStepAt p dt v j).Pe
    Pp := fun k => match k with
      | 0 => 0
      | j + 1 => (hepvStepAt p dt v j).Pp
    tankP := fun k => (hepvAcc p dt v k).tankP
    tankT := fun k => (hepvAcc p dt v k).tankT
    E_kWh := (p.batt_kWh * 3.6e6 - (hepvAcc p dt v (v.length - 1)).batt) / 3.6e6
    pneu_usage := (hepvAcc p dt v (v.length - 1)).count }

/-!
Abstract tank transitions, for invariants quantified over any sequence
of charge/discharge/idle steps: an idle step is the `else` branch of
`simulate_hepv` (state copied unchanged), a flow step is a call to
`tank_thermodynamics`.
-/

/-- One tank transition: idle (state copied), or a flow of `Pw` watts
for `dt` seconds, charging or discharging. -/
inductive TankTrans where
  | idle : TankTrans
  | flow (Pw dt : ℝ) (charging : Bool) : TankTrans

/-- Apply one transition to a `(pressure, temperature)` state. -/
noncomputable def tankApply (s : ℝ × ℝ) : TankTrans → ℝ × ℝ
  | TankTrans.idle => s
  | TankTrans.flow Pw dt c => tank_thermodynamics P s.1 s.2 Pw dt c

/-- Run a sequence of transitions from the initial tank state of
`simulate_hepv` (ambient pressure and temperature). -/
noncomputable def tankRun (l : List TankTrans) : ℝ × ℝ :=
  l.foldl tankApply (P.Pamb, P.Tamb)

/-- Air mass determined by pressure and temperature through the
ideal-gas relation `m = p V / (R T)` at the tank volume. -/
noncomputable def idealGasMass (p : Params) (Pa T : ℝ) : ℝ :=
  Pa * p.Vtank / (p.R * T)

/-! Helper bounds on the efficiency maps and the tank step. -/

theorem min_le_clip (x lo hi : ℝ) : min lo hi ≤ clip x lo hi :=
  min_le_min (le_max_right x lo) le_rfl

theorem electric_eff_le (p : Params) (kmh load : ℝ) :
    electric_motor_efficiency p kmh load ≤ p.motor_eta_peak := by
  unfold electric_motor_efficiency
  exact clip_le _ _ _

theorem min_le_electric_eff (p : Params) (kmh load : ℝ) :
    min 0.70 p.motor_eta_peak ≤ electric_motor_efficiency p kmh load := by
  unfold electric_motor_efficiency
  exact min_le_clip _ _ _

theorem electric_eff_pos (p : Params) (hpk : 0 < p.motor_eta_peak) (kmh load : ℝ) :
    0 < electric_motor_efficiency p kmh load :=
  lt_of_lt_of_le (lt_min (by norm_num) hpk) (min_le_electric_eff p kmh load)

theorem electric_eff_lower (kmh load : ℝ) :
    0.70 ≤ electric_motor_efficiency P kmh load := by
  have h := min_le_electric_eff P kmh load
  rw [P_motor_eta_peak] at h
  calc (0.70 : ℝ) = min 0.70 0.92 := by norm_num
    _ ≤ _ := h

theorem pneumatic_eff_bounds (p : Params) (kmh bar : ℝ) :
    0.15 ≤ pneumatic_motor_efficiency p kmh bar ∧
      pneumatic_motor_efficiency p kmh bar ≤ 0.45 := by
  unfold pneumatic_motor_efficiency
  exact ⟨le_clip _ _ _ (by norm_num), clip_le _ _ _⟩

/-- Invariant of the tank state: pressure in `[Pamb, Pmax]`,
temperature in the clamp band `[273, 400]`. -/
def tankInv (s : ℝ × ℝ) : Prop :=
  P.Pamb ≤ s.1 ∧ s.1 ≤ P.Pmax ∧ 273 ≤ s.2 ∧ s.2 ≤ 400

theorem tank_thermodynamics_inv (Pa T Pw dt : ℝ) (c : Bool) :
    tankInv (tank_thermodynamics P Pa T Pw dt c) := by
  unfold tank_thermodynamics tankInv
  refine ⟨?_, ?_, ?_, ?_⟩
  · exact le_clip _ _ _ (by norm_num)
  · exact clip_le _ _ _
  · exact le_clip _ _ _ (by norm_num)
  · exact clip_le _ _ _

theorem tankFold_inv (l : List TankTrans) :
    ∀ s : ℝ × ℝ, tankInv s → tankInv (l.foldl tankApply s) := by
  induction l with
  | nil => exact fun s hs => hs
  | cons t l ih =>
    intro s hs
    cases t with
    | idle => exact ih s hs
    | flow Pw dt c => exact ih _ (tank_thermodynamics_inv s.1 s.2 Pw dt c)

/-- C6: for any sequence of charge/discharge/idle tank transitions from
the initial state, the tank pressure stays within `[Pamb, Pmax]` and the
tank temperature within the documented clamp band (the source clamps to
`[273 K, 400 K]`, inside the spec band `[250 K, 400 K]`). -/
theorem tank_state_bounds (l : List TankTrans) :
    P.Pamb ≤ (tankRun l).1 ∧ (tankRun l).1 ≤ P.Pmax ∧
      250 ≤ (tankRun l).2 ∧ (tankRun l).2 ≤ 400 := by
  have h : tankInv (tankRun l) := by
    apply tankFold_inv
    unfold tankInv
    norm_num
  exact ⟨h.1, h.2.1, by linarith [h.2.2.1], h.2.2.2⟩

/-- C7: the electric motor efficiency always lies in
`[0.70, motor_eta_peak]` and the pneumatic motor efficiency always lies
in `[0.15, 0.45]`, over the whole input domain. -/
theorem efficiency_maps_bounded :
    (∀ kmh load : ℝ, 0.70 ≤ electric_motor_efficiency P kmh load ∧
      electric_motor_efficiency P kmh load ≤ P.motor_eta_peak) ∧
    (∀ kmh bar : ℝ, 0.15 ≤ pneumatic_motor_efficiency P kmh bar ∧
      pneumatic_motor_efficiency P kmh bar ≤ 0.45) :=
  ⟨fun kmh load => ⟨electric_eff_lower kmh load, electric_eff_le P kmh load⟩,
   fun kmh bar => pneumatic_eff_bounds P kmh bar⟩

/-- C4 (amended): both integrators keep the reported state of charge in
`[0, 1]` at every step (the series are written as `np.clip(·, 0, 1)`,
with index 0 initialized to 1). -/
theorem soc_within_unit_interval (dt : ℝ) (v : List ℝ) (k : ℕ) :
    (0 ≤ (simulate_bev P dt v).soc k ∧ (simulate_bev P dt v).soc k ≤ 1) ∧
    (0 ≤ (simulate_hepv P dt v).soc k ∧ (simulate_hepv P dt v).soc k ≤ 1) := by
  constructor
  · show (0 ≤ if k = 0 then (1 : ℝ) else _) ∧ (if k = 0 then (1 : ℝ) else _) ≤ 1
    by_cases hk : k = 0
    · rw [if_pos hk]; norm_num
    · rw [if_neg hk]
      exact ⟨le_clip _ _ _ (by norm_num), clip_le _ _ _⟩
  · show (0 ≤ hepvSocOf P _ k) ∧ hepvSocOf P _ k ≤ 1
    unfold hepvSocOf
    by_cases hk : k = 0
    · rw [if_pos hk]; norm_num
    · rw [if_neg hk]
      exact ⟨le_clip _ _ _ (by norm_num), clip_le _ _ _⟩

/-- C2 (evidence of the code bug): a charging step with positive power
at a mid-range tank pressure (200 bar, well inside both clamps) returns
a strictly lower pressure, because the code mutates pressure directly by
`dP = E (1 - n_comp) / Vtank < 0`; there is no mass state from which
pressure could be recomputed. -/
theorem tank_charging_drops_pressure :
    (tank_thermodynamics P 200e5 293 10000 (1/10) true).1 < 200e5 := by
  unfold tank_thermodynamics clip
  norm_num [min_def, max_def]

/-!
Branch characterizations of the HEPV loop body.  In each lemma `Pm`
abbreviates the unclipped power demand of the step and `kmh` the speed
in km/h, exactly as the body computes them.
-/

theorem hepvStep_traction_nopneu (p : Params) (dt vprev vcur batt tankP tankT socPrev : ℝ)
    (hPm : 0 ≤ power_required p vcur ((vcur - vprev) / dt) (p.m0 + p.m_pneu))
    (hno : ¬(vcur * 3.6 < 35 ∧ 100 < tankP / 1e5 ∧
      8000 < power_required p vcur ((vcur - vprev) / dt) (p.m0 + p.m_pneu) ∧
      0.2 < socPrev)) :
    hepvStep p dt vprev vcur batt tankP tankT socPrev =
      { batt := if 0 < power_required p vcur ((vcur - vprev) / dt) (p.m0 + p.m_pneu) then
          batt - power_required p vcur ((vcur - vprev) / dt) (p.m0 + p.m_pneu) /
            electric_motor_efficiency p (vcur * 3.6)
              (power_required p vcur ((vcur - vprev) / dt) (p.m0 + p.m_pneu) / p.motor_Pmax) * dt
          else batt
        tankP := tankP
        tankT := tankT
        Pe := power_required p vcur ((vcur - vprev) / dt) (p.m0 + p.m_pneu)
        Pp := 0
        used := false } := by
  simp only [hepvStep, if_pos hPm, if_neg hno]
  norm_num

theorem hepvStep_traction_pneu (p : Params) (dt vprev vcur batt tankP tankT socPrev : ℝ)
    (hPm : 0 ≤ power_required p vcur ((vcur - vprev) / dt) (p.m0 + p.m_pneu))
    (hyes : vcur * 3.6 < 35 ∧ 100 < tankP / 1e5 ∧
      8000 < power_required p vcur ((vcur - vprev) / dt) (p.m0 + p.m_pneu) ∧
      0.2 < socPrev) :
    hepvStep p dt vprev vcur batt tankP tankT socPrev =
      { batt := batt - (power_required p vcur ((vcur - vprev) / dt) (p.m0 + p.m_pneu) -
          0.35 * power_required p vcur ((vcur - vprev) / dt) (p.m0 + p.m_pneu)) /
            electric_motor_efficiency p (vcur * 3.6)
              ((power_required p vcur ((vcur - vprev) / dt) (p.m0 + p.m_pneu) -
                0.35 * power_required p vcur ((vcur - vprev) / dt) (p.m0 + p.m_pneu)) /
                p.motor_Pmax) * dt
        tankP := (tank_thermodynamics p tankP tankT
          (0.35 * power_required p vcur ((vcur - vprev) / dt) (p.m0 + p.m_pneu)) dt false).1
        tankT := (tank_thermodynamics p tankP tankT
          (0.35 * power_required p vcur ((vcur - vprev) / dt) (p.m0 + p.m_pneu)) dt false).2
        Pe := power_required p vcur ((vcur - vprev) / dt) (p.m0 + p.m_pneu) -
          0.35 * power_required p vcur ((vcur - vprev) / dt) (p.m0 + p.m_pneu)
        Pp := 0.35 * power_required p vcur ((vcur - vprev) / dt) (p.m0 + p.m_pneu)
        used := true } := by
  have hgt : (8000 : ℝ) < power_required p vcur ((vcur - vprev) / dt) (p.m0 + p.m_pneu) :=
    hyes.2.2.1
  have hPe : 0 < power_required p vcur ((vcur - vprev) / dt) (p.m0 + p.m_pneu) -
      0.35 * power_required p vcur ((vcur - vprev) / dt) (p.m0 + p.m_pneu) := by nlinarith
  have hPp : 0 < 0.35 * power_required p vcur ((vcur - vprev) / dt) (p.m0 + p.m_pneu) := by
    nlinarith
  simp only [hepvStep, if_pos hPm, if_pos hyes, if_pos hPe, if_pos hPp]

theorem hepvStep_braking_battonly (p : Params) (dt vprev vcur batt tankP tankT socPrev : ℝ)
    (hPm : ¬0 ≤ power_required p vcur ((vcur - vprev) / dt) (p.m0 + p.m_pneu))
    (hcond : socPrev < 0.3 ∨ 280 < tankP / 1e5) :
    hepvStep p dt vprev vcur batt tankP tankT socPrev =
      { batt := batt + min (-power_required p vcur ((vcur - vprev) / dt) (p.m0 + p.m_pneu))
          ((p.batt_kWh * 3.6e6 * p.battery_charge_limit - batt) / dt) * p.regen_eta * dt
        tankP := tankP
        tankT := tankT
        Pe := -min (-power_required p vcur ((vcur - vprev) / dt) (p.m0 + p.m_pneu))
          ((p.batt_kWh * 3.6e6 * p.battery_charge_limit - batt) / dt)
        Pp := 0
        used := false } := by
  simp only [hepvStep, if_neg hPm, if_pos hcond]
  norm_num

theorem hepvStep_braking_split (p : Params) (dt vprev vcur batt tankP tankT socPrev : ℝ)
    (hPm : ¬0 ≤ power_required p vcur ((vcur - vprev) / dt) (p.m0 + p.m_pneu))
    (hcond : ¬(socPrev < 0.3 ∨ 280 < tankP / 1e5)) :
    hepvStep p dt vprev vcur batt tankP tankT socPrev =
      { batt := batt + min
          (0.75 * -power_required p vcur ((vcur - vprev) / dt) (p.m0 + p.m_pneu))
          ((p.batt_kWh * 3.6e6 * p.battery_charge_limit - batt) / dt) * p.regen_eta * dt
        tankP := (tank_thermodynamics p tankP tankT
          (0.25 * -power_required p vcur ((vcur - vprev) / dt) (p.m0 + p.m_pneu)) dt true).1
        tankT := (tank_thermodynamics p tankP tankT
          (0.25 * -power_required p vcur ((vcur - vprev) / dt) (p.m0 + p.m_pneu)) dt true).2
        Pe := -min (0.75 * -power_required p vcur ((vcur - vprev) / dt) (p.m0 + p.m_pneu))
          ((p.batt_kWh * 3.6e6 * p.battery_charge_limit - batt) / dt)
        Pp := -(0.25 * -power_required p vcur ((vcur - vprev) / dt) (p.m0 + p.m_pneu))
        used := false } := by
  have hneg : power_required p vcur ((vcur - vprev) / dt) (p.m0 + p.m_pneu) < 0 :=
    lt_of_not_le hPm
  have hPt : 0 < 0.25 * -power_required p vcur ((vcur - vprev) / dt) (p.m0 + p.m_pneu) := by
    nlinarith
  simp only [hepvStep, if_neg hPm, if_neg hcond, if_pos hPt]

theorem tank_charge_from_ambient (T Pw dt : ℝ) (hPw : 0 < Pw) (hdt : 0 < dt)
    (hdt2 : dt ≤ 3000) :
    (tank_thermodynamics P P.Pamb T Pw dt true).1 = P.Pamb := by
  have hmul : 0 < Pw * dt := mul_pos hPw hdt
  have key : ∀ b f : ℝ, b ≤ 101325 → 0 ≤ f → f ≤ 1 → b * f ≤ 101325 := by
    intro b f hb hf0 hf1
    nlinarith [mul_nonneg (sub_nonneg.mpr hb) hf0,
      mul_nonneg (sub_nonneg.mpr hf1) (show (0:ℝ) ≤ 101325 by norm_num)]
  simp only [tank_thermodynamics]
  norm_num
  apply clip_eq_lo _ _ _ ?_ (by norm_num)
  apply key
  · nlinarith
  · nlinarith
  · nlinarith

theorem hepvStep_ambient (dt vprev vcur batt tankT socPrev : ℝ) (hdt : 0 < dt)
    (hdt2 : dt ≤ 3000) :
    (hepvStep P dt vprev vcur batt P.Pamb tankT socPrev).tankP = P.Pamb ∧
    (hepvStep P dt vprev vcur batt P.Pamb tankT socPrev).used = false := by
  by_cases hPm : 0 ≤ power_required P vcur ((vcur - vprev) / dt) (P.m0 + P.m_pneu)
  · have hno : ¬(vcur * 3.6 < 35 ∧ 100 < P.Pamb / 1e5 ∧
        8000 < power_required P vcur ((vcur - vprev) / dt) (P.m0 + P.m_pneu) ∧
        0.2 < socPrev) := by
      rintro ⟨-, h2, -⟩
      rw [P_Pamb] at h2
      norm_num at h2
    rw [hepvStep_traction_nopneu P dt vprev vcur batt P.Pamb tankT socPrev hPm hno]
    exact ⟨rfl, rfl⟩
  · by_cases hcond : socPrev < 0.3 ∨ 280 < P.Pamb / 1e5
    · rw [hepvStep_braking_battonly P dt vprev vcur batt P.Pamb tankT socPrev hPm hcond]
      exact ⟨rfl, rfl⟩
    · rw [hepvStep_braking_split P dt vprev vcur batt P.Pamb tankT socPrev hPm hcond]
      refine ⟨?_, rfl⟩
      have hneg : power_required P vcur ((vcur - vprev) / dt) (P.m0 + P.m_pneu) < 0 :=
        lt_of_not_le hPm
      exact tank_charge_from_ambient tankT _ dt (by nlinarith) hdt hdt2

theorem hepvAcc_ambient (dt : ℝ) (v : List ℝ) (hdt : 0 < dt) (hdt2 : dt ≤ 3000) :
    ∀ k, (hepvAcc P dt v k).tankP = P.Pamb ∧ (hepvAcc P dt v k).count = 0 := by
  intro k
  induction k with
  | zero => exact ⟨rfl, rfl⟩
  | succ k ih =>
    have e : hepvAcc P dt v (k + 1) =
        ⟨(hepvStepAt P dt v k).batt, (hepvStepAt P dt v k).tankP, (hepvStepAt P dt v k).tankT,
          (hepvAcc P dt v k).count + (if (hepvStepAt P dt v k).used then 1 else 0)⟩ := rfl
    have e2 : hepvStepAt P dt v k =
        hepvStep P dt (v.getD k 0) (v.getD (k + 1) 0) (hepvAcc P dt v k).batt P.Pamb
          (hepvAcc P dt v k).tankT (hepvSocOf P (hepvAcc P dt v k).batt k) := by
      simp only [hepvStepAt]
      rw [ih.1]
    have hstep := hepvStep_ambient dt (v.getD k 0) (v.getD (k + 1) 0) (hepvAcc P dt v k).batt
      (hepvAcc P dt v k).tankT (hepvSocOf P (hepvAcc P dt v k).batt k) hdt hdt2
    rw [e, e2]
    refine ⟨hstep.1, ?_⟩
    rw [ih.2, hstep.2]
    simp

/-- C1 (amended): for every speed series and every step size with
`0 < dt ≤ 3000` (equivalently, a non-negative per-step leak factor
`1 - (leak_per_min/60) dt`), the dual-source integrator keeps the tank
pressure at `Pamb` at every step and reports `pneu_usage = 0`: the
charging pressure delta `E (1 - n_comp) / Vtank` is negative, the clamp
floors the pressure back to `Pamb`, and the pneumatic traction path
needs more than 100 bar. -/
theorem hepv_tank_stays_ambient (dt : ℝ) (v : List ℝ) (hdt : 0 < dt) (hdt2 : dt ≤ 3000) :
    (∀ k, (simulate_hepv P dt v).tankP k = P.Pamb) ∧
      (simulate_hepv P dt v).pneu_usage = 0 := by
  constructor
  · intro k
    exact (hepvAcc_ambient dt v hdt hdt2 k).1
  · exact (hepvAcc_ambient dt v hdt hdt2 (v.length - 1)).2

/-- Witness for C1 at `dt = 0.1` on a two-sample standstill series. -/
theorem hepv_tank_stays_ambient_witness :
    ((0 : ℝ) < 1/10 ∧ (1/10 : ℝ) ≤ 3000) ∧
    ((∀ k, (simulate_hepv P (1/10) [0, 0]).tankP k = P.Pamb) ∧
      (simulate_hepv P (1/10) [0, 0]).pneu_usage = 0) :=
  ⟨⟨by norm_num, by norm_num⟩,
    hepv_tank_stays_ambient (1/10) [0, 0] (by norm_num) (by norm_num)⟩

/-- C1 (counterexample to the unrestricted claim): with the pathological
step size `dt = 6000 s` the leak factor is `1 - 2 = -1`; a braking step
from `1100 m/s` to `10 m/s` drives the pre-clamp pressure negative, the
negated leak factor flips it to `+513915 Pa`, and the clamp keeps it —
so the tank pressure leaves `Pamb` on this input series. -/
theorem hepv_tank_pressure_escape :
    (simulate_hepv P 6000 [1100, 10]).tankP 1 = 513915 ∧ (513915 : ℝ) ≠ P.Pamb := by
  constructor
  · show (hepvStep P 6000 1100 10 (P.batt_kWh * 3.6e6) P.Pamb P.Tamb 1).tankP = 513915
    have hPm : power_required P 10 ((10 - 1100) / 6000) (P.m0 + P.m_pneu) = -1709/15 := by
      unfold power_required aero_drag rolling_resistance
      norm_num [max_def]
    rw [hepvStep_braking_split P 6000 1100 10 (P.batt_kWh * 3.6e6) P.Pamb P.Tamb 1
      (by rw [hPm]; norm_num) (by norm_num)]
    rw [hPm]
    unfold tank_thermodynamics
    norm_num [clip, min_def, max_def]
  · norm_num

/-- C4 (counterexample): on the two-sample standstill series with
`dt = 0.1`, the dual-source integrator reports a state of charge above
`regen_limit = 0.98` at step 1 (the battery starts full and one idle
step consumes well under 2 percent), so the claimed bound
`[0, regen_limit]` fails for the dual-source integrator. -/
theorem hepv_soc_exceeds_regen_limit :
    P.battery_charge_limit < (simulate_hepv P (1/10) [0, 0]).soc 1 := by
  show P.battery_charge_limit < hepvSocOf P (hepvAcc P (1/10) [0, 0] 1).batt 1
  have e : (hepvAcc P (1/10) [0, 0] 1).batt =
      (hepvStep P (1/10) 0 0 (P.batt_kWh * 3.6e6) P.Pamb P.Tamb 1).batt := rfl
  rw [e]
  have hPmval : power_required P 0 ((0 - 0) / (1/10)) (P.m0 + P.m_pneu) = 0.5886 := by
    unfold power_required aero_drag rolling_resistance
    norm_num [max_def]
  rw [hepvStep_traction_nopneu P (1/10) 0 0 (P.batt_kWh * 3.6e6) P.Pamb P.Tamb 1
    (by rw [hPmval]; norm_num) (by rintro ⟨-, h2, -⟩; rw [P_Pamb] at h2; norm_num at h2)]
  rw [hPmval]
  rw [if_pos (by norm_num : (0:ℝ) < 0.5886)]
  have heta := electric_eff_lower (0 * 3.6) ((0.5886 : ℝ) / P.motor_Pmax)
  have heta0 : (0:ℝ) < electric_motor_efficiency P (0 * 3.6) ((0.5886 : ℝ) / P.motor_Pmax) := by
    linarith
  have hdiv : (0.5886 : ℝ) / electric_motor_efficiency P (0 * 3.6) ((0.5886 : ℝ) / P.motor_Pmax) ≤ 0.841 := by
    rw [div_le_iff heta0]
    nlinarith
  unfold hepvSocOf
  rw [if_neg (by norm_num : ¬(1 : ℕ) = 0)]
  apply lt_clip_of_lt _ _ _ _ _ (by norm_num)
  rw [P_battery_charge_limit, P_batt_kWh]
  rw [lt_div_iff (by norm_num : (0:ℝ) < 5 * 3.6e6)]
  nlinarith

/-- C3 (counterexample): a tank held at `Pmin` and ambient temperature
given zero pneumatic flow for one 60 s step comes out with pressure and
temperature — hence ideal-gas mass — exactly unchanged: the integrator
copies the tank state verbatim on a no-flow step, applying neither
leakage nor heat exchange, contradicting the claimed strict mass
decrease. -/
theorem null_transition_no_leak :
    (hepvStep P 60 0 0 (P.batt_kWh * 3.6e6) P.Pmin P.Tamb 1).tankP = P.Pmin ∧
    (hepvStep P 60 0 0 (P.batt_kWh * 3.6e6) P.Pmin P.Tamb 1).tankT = P.Tamb ∧
    idealGasMass P (hepvStep P 60 0 0 (P.batt_kWh * 3.6e6) P.Pmin P.Tamb 1).tankP
        (hepvStep P 60 0 0 (P.batt_kWh * 3.6e6) P.Pmin P.Tamb 1).tankT =
      idealGasMass P P.Pmin P.Tamb := by
  have hPmval : power_required P 0 ((0 - 0) / 60) (P.m0 + P.m_pneu) = 0.5886 := by
    unfold power_required aero_drag rolling_resistance
    norm_num [max_def]
  rw [hepvStep_traction_nopneu P 60 0 0 (P.batt_kWh * 3.6e6) P.Pmin P.Tamb 1
    (by rw [hPmval]; norm_num)
    (by rintro ⟨-, h2, -⟩; rw [P_Pmin] at h2; norm_num at h2)]
  exact ⟨rfl, rfl, rfl⟩

/-- C3 (amended): a null tank transition (a step whose assigned
pneumatic power is zero) leaves the tank pressure and temperature
unchanged; leakage and ambient heat exchange are applied only inside
charging/discharging transitions. -/
theorem null_transition_preserves_tank (p : Params) (dt vprev vcur batt tankP tankT socPrev : ℝ)
    (h : (hepvStep p dt vprev vcur batt tankP tankT socPrev).Pp = 0) :
    (hepvStep p dt vprev vcur batt tankP tankT socPrev).tankP = tankP ∧
    (hepvStep p dt vprev vcur batt tankP tankT socPrev).tankT = tankT := by
  by_cases hPm : 0 ≤ power_required p vcur ((vcur - vprev) / dt) (p.m0 + p.m_pneu)
  · by_cases hyes : vcur * 3.6 < 35 ∧ 100 < tankP / 1e5 ∧
        8000 < power_required p vcur ((vcur - vprev) / dt) (p.m0 + p.m_pneu) ∧
        0.2 < socPrev
    · exfalso
      rw [hepvStep_traction_pneu p dt vprev vcur batt tankP tankT socPrev hPm hyes] at h
      simp only at h
      have hgt := hyes.2.2.1
      nlinarith
    · rw [hepvStep_traction_nopneu p dt vprev vcur batt tankP tankT socPrev hPm hyes]
      exact ⟨rfl, rfl⟩
  · by_cases hcond : socPrev < 0.3 ∨ 280 < tankP / 1e5
    · rw [hepvStep_braking_battonly p dt vprev vcur batt tankP tankT socPrev hPm hcond]
      exact ⟨rfl, rfl⟩
    · exfalso
      rw [hepvStep_braking_split p dt vprev vcur batt tankP tankT socPrev hPm hcond] at h
      simp only at h
      have hneg := lt_of_not_le hPm
      nlinarith

/-- Witness for the amended C3 on a concrete no-flow step. -/
theorem null_transition_preserves_tank_witness :
    ((hepvStep P (1/10) 0 0 (P.batt_kWh * 3.6e6) P.Pamb P.Tamb 1).Pp = 0) ∧
    ((hepvStep P (1/10) 0 0 (P.batt_kWh * 3.6e6) P.Pamb P.Tamb 1).tankP = P.Pamb ∧
     (hepvStep P (1/10) 0 0 (P.batt_kWh * 3.6e6) P.Pamb P.Tamb 1).tankT = P.Tamb) := by
  have hPmval : power_required P 0 ((0 - 0) / (1/10)) (P.m0 + P.m_pneu) = 0.5886 := by
    unfold power_required aero_drag rolling_resistance
    norm_num [max_def]
  have h : (hepvStep P (1/10) 0 0 (P.batt_kWh * 3.6e6) P.Pamb P.Tamb 1).Pp = 0 := by
    rw [hepvStep_traction_nopneu P (1/10) 0 0 (P.batt_kWh * 3.6e6) P.Pamb P.Tamb 1
      (by rw [hPmval]; norm_num)
      (by rintro ⟨-, h2, -⟩; rw [P_Pamb] at h2; norm_num at h2)]
  exact ⟨h, null_transition_preserves_tank P (1/10) 0 0 (P.batt_kWh * 3.6e6) P.Pamb P.Tamb 1 h⟩

/-- C5: on traction steps the pneumatic path is used exactly when the
speed is below 35 km/h, the tank pressure above 100 bar, the demand
above 8 kW and the previous state of charge above 0.2; whenever it is
used, the (ideal-gas) tank air mass is necessarily above a positive
floor (4 kg), the pneumatic path carries `0.35` of the demand and the
electric path the remainder; otherwise the electric path carries all of
it.  (The source has no separate mass variable: the usable-mass
condition of the spec is subsumed by the pressure threshold through the
ideal-gas relation.) -/
theorem pneumatic_dispatch (dt vprev vcur batt tankP tankT socPrev : ℝ)
    (hPm : 0 ≤ power_required P vcur ((vcur - vprev) / dt) (P.m0 + P.m_pneu))
    (hT0 : 0 < tankT) (hT4 : tankT ≤ 400) :
    ((hepvStep P dt vprev vcur batt tankP tankT socPrev).used = true ↔
      (vcur * 3.6 < 35 ∧ 100 < tankP / 1e5 ∧
        8000 < power_required P vcur ((vcur - vprev) / dt) (P.m0 + P.m_pneu) ∧
        0.2 < socPrev)) ∧
    ((hepvStep P dt vprev vcur batt tankP tankT socPrev).used = true →
      4 ≤ idealGasMass P tankP tankT ∧
      (hepvStep P dt vprev vcur batt tankP tankT socPrev).Pp =
        0.35 * power_required P vcur ((vcur - vprev) / dt) (P.m0 + P.m_pneu) ∧
      (hepvStep P dt vprev vcur batt tankP tankT socPrev).Pe =
        power_required P vcur ((vcur - vprev) / dt) (P.m0 + P.m_pneu) -
          0.35 * power_required P vcur ((vcur - vprev) / dt) (P.m0 + P.m_pneu)) ∧
    ((hepvStep P dt vprev vcur batt tankP tankT socPrev).used = false →
      (hepvStep P dt vprev vcur batt tankP tankT socPrev).Pe =
        power_required P vcur ((vcur - vprev) / dt) (P.m0 + P.m_pneu) ∧
      (hepvStep P dt vprev vcur batt tankP tankT socPrev).Pp = 0) := by
  by_cases hyes : vcur * 3.6 < 35 ∧ 100 < tankP / 1e5 ∧
      8000 < power_required P vcur ((vcur - vprev) / dt) (P.m0 + P.m_pneu) ∧
      0.2 < socPrev
  · rw [hepvStep_traction_pneu P dt vprev vcur batt tankP tankT socPrev hPm hyes]
    refine ⟨iff_of_true rfl hyes, fun _ => ⟨?_, rfl, rfl⟩, fun hc => Bool.noConfusion hc⟩
    have hp : (1e7 : ℝ) < tankP := by
      have h2 := hyes.2.1
      nlinarith
    unfold idealGasMass
    rw [P_Vtank, P_R, le_div_iff (by positivity)]
    nlinarith
  · rw [hepvStep_traction_nopneu P dt vprev vcur batt tankP tankT socPrev hPm hyes]
    exact ⟨iff_of_false (fun hc => Bool.noConfusion hc) hyes,
      fun hc => Bool.noConfusion hc, fun _ => ⟨rfl, rfl⟩⟩

/-- Witness for C5 on a concrete low-speed high-power traction step
with a charged tank. -/
theorem pneumatic_dispatch_witness :
    (0 ≤ power_required P 9 ((9 - 5) / (1/10)) (P.m0 + P.m_pneu) ∧
      (0 : ℝ) < 293 ∧ (293 : ℝ) ≤ 400) ∧
    (((hepvStep P (1/10) 5 9 (P.batt_kWh * 3.6e6) 2e7 293 1).used = true ↔
      ((9 : ℝ) * 3.6 < 35 ∧ 100 < (2e7 : ℝ) / 1e5 ∧
        8000 < power_required P 9 ((9 - 5) / (1/10)) (P.m0 + P.m_pneu) ∧
        (0.2 : ℝ) < 1)) ∧
    ((hepvStep P (1/10) 5 9 (P.batt_kWh * 3.6e6) 2e7 293 1).used = true →
      4 ≤ idealGasMass P 2e7 293 ∧
      (hepvStep P (1/10) 5 9 (P.batt_kWh * 3.6e6) 2e7 293 1).Pp =
        0.35 * power_required P 9 ((9 - 5) / (1/10)) (P.m0 + P.m_pneu) ∧
      (hepvStep P (1/10) 5 9 (P.batt_kWh * 3.6e6) 2e7 293 1).Pe =
        power_required P 9 ((9 - 5) / (1/10)) (P.m0 + P.m_pneu) -
          0.35 * power_required P 9 ((9 - 5) / (1/10)) (P.m0 + P.m_pneu)) ∧
    ((hepvStep P (1/10) 5 9 (P.batt_kWh * 3.6e6) 2e7 293 1).used = false →
      (hepvStep P (1/10) 5 9 (P.batt_kWh * 3.6e6) 2e7 293 1).Pe =
        power_required P 9 ((9 - 5) / (1/10)) (P.m0 + P.m_pneu) ∧
      (hepvStep P (1/10) 5 9 (P.batt_kWh * 3.6e6) 2e7 293 1).Pp = 0)) := by
  have hPmval : power_required P 9 ((9 - 5) / (1/10)) (P.m0 + P.m_pneu) = 180679.7682 := by
    unfold power_required aero_drag rolling_resistance
    norm_num [max_def]
  refine ⟨⟨by rw [hPmval]; norm_num, by norm_num, by norm_num⟩, ?_⟩
  exact pneumatic_dispatch (1/10) 5 9 (P.batt_kWh * 3.6e6) 2e7 293 1
    (by rw [hPmval]; norm_num) (by norm_num) (by norm_num)

theorem bevStep_power (p : Params) (dt vprev vcur batt : ℝ) :
    (bevStep p dt vprev vcur batt).power =
      clip (power_required p vcur ((vcur - vprev) / dt) p.m0) (-12000) p.motor_Pmax := by
  simp only [bevStep]
  split_ifs <;> rfl

theorem bevBatt_le (p : Params) (dt : ℝ) (v : List ℝ) (hdt : 0 < dt)
    (hpk : 0 < p.motor_eta_peak) (hlim : p.battery_charge_limit ≤ 1)
    (hcap : 0 ≤ p.batt_kWh) :
    ∀ k, bevBatt p dt v k ≤ p.batt_kWh * 3.6e6 := by
  intro k
  induction k with
  | zero => exact le_refl _
  | succ k ih =>
    show (bevStep p dt (v.getD k 0) (v.getD (k + 1) 0) (bevBatt p dt v k)).batt ≤ _
    simp only [bevStep]
    split_ifs with hPm
    · simp only
      have heta := electric_eff_pos p hpk ((v.getD (k + 1) 0) * 3.6)
        (clip (power_required p (v.getD (k + 1) 0) ((v.getD (k + 1) 0 - v.getD k 0) / dt) p.m0)
          (-12000) p.motor_Pmax / p.motor_Pmax)
      have hnn : 0 ≤ clip (power_required p (v.getD (k + 1) 0)
          ((v.getD (k + 1) 0 - v.getD k 0) / dt) p.m0) (-12000) p.motor_Pmax /
          electric_motor_efficiency p ((v.getD (k + 1) 0) * 3.6)
            (clip (power_required p (v.getD (k + 1) 0) ((v.getD (k + 1) 0 - v.getD k 0) / dt) p.m0)
              (-12000) p.motor_Pmax / p.motor_Pmax) * dt :=
        mul_nonneg (div_nonneg hPm heta.le) hdt.le
      linarith
    · simp only
      have h1 : min (-clip (power_required p (v.getD (k + 1) 0)
            ((v.getD (k + 1) 0 - v.getD k 0) / dt) p.m0) (-12000) p.motor_Pmax * p.regen_eta)
            ((p.batt_kWh * 3.6e6 * p.battery_charge_limit - bevBatt p dt v k) / dt) * dt ≤
          (p.batt_kWh * 3.6e6 * p.battery_charge_limit - bevBatt p dt v k) / dt * dt :=
        mul_le_mul_of_nonneg_right (min_le_right _ _) hdt.le
      rw [div_mul_cancel₀ _ (ne_of_gt hdt)] at h1
      have h2 : p.batt_kWh * 3.6e6 * p.battery_charge_limit ≤ p.batt_kWh * 3.6e6 := by
        nlinarith
      linarith

/-- C8: for every configuration with positive peak motor efficiency,
charge ceiling at most 1 and non-negative capacity and resistance
coefficients, and every speed series with positive step size, the
single-source integrator reports a non-negative total consumed energy.
(The property needs no restriction on the cycle shape: regeneration is
capped by the charge ceiling every step, so the battery can never end
above its initial energy.) -/
theorem bev_energy_nonneg (p : Params) (dt : ℝ) (v : List ℝ)
    (hdt : 0 < dt) (hpk : 0 < p.motor_eta_peak) (hlim : p.battery_charge_limit ≤ 1)
    (hcap : 0 ≤ p.batt_kWh) (hCrr : 0 ≤ p.Crr) (hCd : 0 ≤ p.Cd) (hrho : 0 ≤ p.rho) :
    0 ≤ (simulate_bev p dt v).E_kWh := by
  show 0 ≤ (p.batt_kWh * 3.6e6 - bevBatt p dt v (v.length - 1)) / 3.6e6
  have h := bevBatt_le p dt v hdt hpk hlim hcap (v.length - 1)
  apply div_nonneg (by linarith) (by norm_num)

/-- Witness for C8 at the default configuration on a short
accelerate-then-stop series. -/
theorem bev_energy_nonneg_witness :
    ((0 : ℝ) < 1 ∧ 0 < P.motor_eta_peak ∧ P.battery_charge_limit ≤ 1 ∧
      0 ≤ P.batt_kWh ∧ 0 ≤ P.Crr ∧ 0 ≤ P.Cd ∧ 0 ≤ P.rho) ∧
    0 ≤ (simulate_bev P 1 [0, 5, 0]).E_kWh :=
  ⟨⟨by norm_num, by norm_num, by norm_num, by norm_num, by norm_num, by norm_num, by norm_num⟩,
    bev_energy_nonneg P 1 [0, 5, 0] (by norm_num) (by norm_num) (by norm_num) (by norm_num)
      (by norm_num) (by norm_num) (by norm_num)⟩

/-- C10: the single-source integrator records only powers clamped to
`[-12000 W, motor_Pmax]` (index 0 is 0), while the dual-source
integrator applies no such clamp: on a hard-acceleration step its
recorded electric power exceeds `motor_Pmax`. -/
theorem power_clamp_props :
    (∀ (dt : ℝ) (v : List ℝ) (k : ℕ), -12000 ≤ (simulate_bev P dt v).power k ∧
      (simulate_bev P dt v).power k ≤ P.motor_Pmax ∧ (simulate_bev P dt v).power 0 = 0) ∧
    P.motor_Pmax < (simulate_hepv P (1/10) [0, 30]).Pe 1 := by
  constructor
  · intro dt v k
    refine ⟨?_, ?_, rfl⟩
    · match k with
      | 0 => show (-12000 : ℝ) ≤ 0; norm_num
      | j + 1 =>
        show (-12000 : ℝ) ≤ (bevStep P dt (v.getD j 0) (v.getD (j + 1) 0) (bevBatt P dt v j)).power
        rw [bevStep_power]
        exact le_clip _ _ _ (by norm_num)
    · match k with
      | 0 => show (0 : ℝ) ≤ P.motor_Pmax; norm_num
      | j + 1 =>
        show (bevStep P dt (v.getD j 0) (v.getD (j + 1) 0) (bevBatt P dt v j)).power ≤ P.motor_Pmax
        rw [bevStep_power]
        exact clip_le _ _ _
  · show P.motor_Pmax < (hepvStep P (1/10) 0 30 (P.batt_kWh * 3.6e6) P.Pamb P.Tamb 1).Pe
    have hPmval : power_required P 30 ((30 - 0) / (1/10)) (P.m0 + P.m_pneu) = 4507322.4 := by
      unfold power_required aero_drag rolling_resistance
      norm_num [max_def]
    rw [hepvStep_traction_nopneu P (1/10) 0 30 (P.batt_kWh * 3.6e6) P.Pamb P.Tamb 1
      (by rw [hPmval]; norm_num)
      (by rintro ⟨h1, -⟩; norm_num at h1)]
    rw [P_motor_Pmax]
    show (15000 : ℝ) < power_required P 30 ((30 - 0) / (1/10)) (P.m0 + P.m_pneu)
    rw [hPmval]
    norm_num

theorem interpVal_nonneg (vs ve : ℚ) (m j : ℕ) (hvs : 0 ≤ vs) (hve : 0 ≤ ve)
    (hj : j + 1 ≤ m) : 0 ≤ interpVal vs ve m j := by
  unfold interpVal
  split_ifs with hm
  · exact hvs
  · have hm2 : 2 ≤ m := by omega
    have hm1 : (1 : ℚ) ≤ (m : ℚ) - 1 := by
      have : ((2 : ℕ) : ℚ) ≤ (m : ℚ) := Nat.cast_le.mpr hm2
      push_cast at this
      linarith
    have hjm : (j : ℚ) ≤ (m : ℚ) - 1 := by
      have : ((j + 1 : ℕ) : ℚ) ≤ (m : ℚ) := Nat.cast_le.mpr hj
      push_cast at this
      linarith
    rw [mul_div_assoc]
    have hτ0 : 0 ≤ (j : ℚ) / ((m : ℚ) - 1) := by positivity
    have hτ1 : (j : ℚ) / ((m : ℚ) - 1) ≤ 1 := by
      rw [div_le_one (by linarith)]
      linarith
    nlinarith [mul_nonneg hvs (sub_nonneg.mpr hτ1), mul_nonneg hve hτ0]

theorem applySeg_nonneg (n : ℕ) (dt off : ℚ) (sg : ℚ × ℚ × ℚ × ℚ)
    (hvs : 0 ≤ sg.2.2.1) (hve : 0 ≤ sg.2.2.2) (v : ℕ → ℚ) (hv : ∀ i, 0 ≤ v i) (i : ℕ) :
    0 ≤ applySeg n dt off sg v i := by
  simp only [applySeg]
  split_ifs with h
  · exact interpVal_nonneg _ _ _ _ hvs hve (by omega)
  · exact hv i

theorem foldl_nonneg {α : Type} : ∀ (l : List α) (f : (ℕ → ℚ) → α → ℕ → ℚ),
    (∀ w a, a ∈ l → (∀ i, 0 ≤ w i) → ∀ i, 0 ≤ f w a i) →
    ∀ w, (∀ i, 0 ≤ w i) → ∀ i, 0 ≤ l.foldl f w i := by
  intro l
  induction l with
  | nil =>
    intro f hf w hw i
    simpa using hw i
  | cons a t ih =>
    intro f hf w hw i
    simp only [List.foldl_cons]
    exact ih f (fun w2 b hb hw2 => hf w2 b (List.mem_cons_of_mem a hb) hw2) (f w a)
      (hf w a (List.mem_cons_self a t) hw) i

theorem urbanV_nonneg (d dt : ℚ) (i : ℕ) : 0 ≤ urbanV d dt i := by
  unfold urbanV
  apply foldl_nonneg _ _ ?_ _ (fun _ => le_refl 0) i
  intro w r _ hw
  apply foldl_nonneg
  · intro w2 sg hsg hw2 i2
    have hsg2 : 0 ≤ sg.2.2.1 ∧ 0 ≤ sg.2.2.2 := by fin_cases hsg <;> norm_num
    exact applySeg_nonneg _ _ _ _ hsg2.1 hsg2.2 _ hw2 i2
  · exact hw

/-- C9 (amended): for positive `duration` and `dt` the sample count is
the number of grid points `k*dt < duration`, i.e. `⌈duration/dt⌉` — not
`⌊duration/dt⌋`, which it exceeds whenever `dt` does not divide
`duration`; all generated speeds are non-negative; and regeneration is
deterministic (the generator is a pure function of `(duration, dt)`). -/
theorem urban_cycle_properties (d dt : ℚ) (hd : 0 < d) (hdt : 0 < dt) :
    (∀ k : ℕ, k < (urban_cycle d dt).1 ↔ (k : ℚ) * dt < d) ∧
    (urban_cycle d dt).1 = ⌈d / dt⌉₊ ∧
    (∀ i, 0 ≤ (urban_cycle d dt).2 i) ∧
    urban_cycle d dt = urban_cycle d dt := by
  refine ⟨fun k => arangeLen_iff d dt hdt k, ?_, fun i => urbanV_nonneg d dt i, rfl⟩
  show arangeLen d dt = ⌈d / dt⌉₊
  unfold arangeLen
  rw [if_pos hdt]

/-- C9 (counterexample to the literal count formula): at
`duration = 5, dt = 2` (both positive) the generator produces
`⌈5/2⌉ = 3` samples (`t = 0, 2, 4`), not `⌊5/2⌋ = 2`. -/
theorem cycle_count_not_floor :
    (0 : ℚ) < 5 ∧ (0 : ℚ) < 2 ∧ (urban_cycle 5 2).1 ≠ (⌊(5 : ℚ) / 2⌋).toNat := by
  refine ⟨by norm_num, by norm_num, ?_⟩
  have h3 : ⌈(5 : ℚ) / 2⌉₊ = 3 := by
    rw [Nat.ceil_eq_iff (by norm_num)]
    constructor <;> norm_num
  have h2 : (⌊(5 : ℚ) / 2⌋).toNat = 2 := by
    norm_num
    rfl
  show arangeLen 5 2 ≠ _
  unfold arangeLen
  rw [if_pos (by norm_num : (0 : ℚ) < 2), h3, h2]
  norm_num

/-- Witness for C9 at the default run parameters
`duration = 400, dt = 0.1`. -/
theorem urban_cycle_properties_witness :
    ((0 : ℚ) < 400 ∧ (0 : ℚ) < 1/10) ∧
    ((∀ k : ℕ, k < (urban_cycle 400 (1/10)).1 ↔ (k : ℚ) * (1/10) < 400) ∧
      (urban_cycle 400 (1/10)).1 = ⌈(400 : ℚ) / (1/10)⌉₊ ∧
      (∀ i, 0 ≤ (urban_cycle 400 (1/10)).2 i) ∧
      urban_cycle 400 (1/10) = urban_cycle 400 (1/10)) :=
  ⟨⟨by norm_num, by norm_num⟩,
    urban_cycle_properties 400 (1/10) (by norm_num) (by norm_num)⟩
